import Mathlib

/-!
Shallow embedding of `src/visual.ts` (Leaflet Template for Power BI).

The repository is a single Power BI custom visual class `Visual` that owns a
Leaflet map, a county-boundary overlay, ten Esri feature layers filtered by
incident type, a grouped layer control with custom collapsible headers, and a
periodic auto-refresh timer.  We embed:

* the pure tooltip/label helpers (`workzoneEachFeature`, the county
  `onEachFeature` callback) as Lean functions over option-typed feature
  properties, with JavaScript truthiness (`||`) and nullish coalescing (`??`)
  made explicit;
* the widget lifecycle (`constructor`, `update`, the deferred
  `initLayersAndUI` tick, `startAutoRefresh`, `destroy`, the
  `visibilitychange` listener) as a state machine on a `WState` record, with
  the `requestAnimationFrame` queue modelled as a FIFO task list and
  `window.setInterval` handles modelled as fresh natural-number ids;
* the collapsible-header wiring (`makeGroupedLayerCollapsible`) as a function
  on a small DOM model of one rendered control group.

The contents of the bundled data files `nc_counties` and `fipsToCounty` are
not part of the sources; the FIPS table is therefore kept abstract (an
association list parameter), which is all the tooltip logic needs.
-/

namespace LeafletPBI

/-! ## JavaScript value helpers -/

/-- JavaScript `v || d` specialised to optional strings: `undefined`/missing
and the empty string are falsy, every other string is truthy. -/
def jsOr (v : Option String) (d : String) : String :=
  match v with
  | none => d
  | some s => if s = "" then d else s

/-! ## Work-zone tooltip (`workzoneEachFeature`) -/

/-- The incident feature properties read by `workzoneEachFeature`
(`feature.properties`); each may be absent. -/
structure WorkzoneProps where
  Severity : Option Int
  Direction : Option String
  IncidentType : Option String
  Condition : Option String
  City : Option String
  CountyName : Option String
  Road : Option String
  Reason : Option String
  EndDateET : Option String
  deriving DecidableEq

/-- `p.Severity === 1 ? "Low" : p.Severity === 2 ? "Medium" : p.Severity === 3
? "High" : "Not Provided"` from `workzoneEachFeature`. -/
def sevLabel (sv : Option Int) : String :=
  if sv = some 1 then "Low"
  else if sv = some 2 then "Medium"
  else if sv = some 3 then "High"
  else "Not Provided"

/-- The `dirMap` record literal from `workzoneEachFeature`. -/
def dirMap : List (String × String) :=
  [("N", "North"), ("S", "South"), ("E", "East"), ("W", "West"),
   ("A", "All"), ("O", "Outer")]

/-- `dirMap[p.Direction] || "Not Provided"`: an absent `Direction` or a key
missing from `dirMap` yields `undefined`, which is falsy. -/
def directionLabel (d : Option String) : String :=
  jsOr (d.bind (fun k => dirMap.lookup k)) "Not Provided"

/-- Newline plus the 21-space indentation inside the template literal that
builds `label` in `workzoneEachFeature`. -/
def tmplSep : String := "<br/>\n                     "

/-- The tooltip `label` template literal of `workzoneEachFeature`. -/
def workzoneLabel (p : WorkzoneProps) : String :=
  "<strong>Type:</strong> " ++ jsOr p.IncidentType "Not Provided" ++ tmplSep ++
  "<strong>Impact Level:</strong> " ++ sevLabel p.Severity ++ tmplSep ++
  "<strong>Condition:</strong> " ++ jsOr p.Condition "Not Provided" ++ tmplSep ++
  "<strong>Place:</strong> " ++ jsOr p.City "Unknown City" ++ ", " ++
    jsOr p.CountyName "Unknown" ++ " County" ++ tmplSep ++
  "<strong>Road:</strong> " ++ jsOr p.Road "Not Provided" ++ tmplSep ++
  "<strong>Direction:</strong> " ++ directionLabel p.Direction ++ tmplSep ++
  "<strong>Reason:</strong> " ++ jsOr p.Reason "Not Provided" ++ tmplSep ++
  "<strong>Until:</strong> " ++ jsOr p.EndDateET "Not Provided"

/-! ## County overlay (`onEachFeature` in `initLayersAndUI`) -/

/-- What the county `onEachFeature` callback attaches to one feature layer:
the bound tooltip text (if any) and the number of `mouseover` / `mouseout`
handlers registered via `layer.on`. -/
structure CountyBinding where
  tooltip : Option String
  mouseoverHandlers : Nat
  mouseoutHandlers : Nat
  deriving DecidableEq

/-- The county `onEachFeature` callback: guarded by `fips != null` (loose
inequality, so both `null` and `undefined` skip the block); inside, the name
is `fipsToCounty[Number(fips)] ?? "Unknown"` and the tooltip is
`` `${name} County` ``.  The `fipsToCounty` table is a bundled data file not
present in the sources, so it is a parameter here. -/
def countyOnEachFeature (fipsToCounty : List (Int × String))
    (fips : Option Int) : CountyBinding :=
  match fips with
  | none => { tooltip := none, mouseoverHandlers := 0, mouseoutHandlers := 0 }
  | some f =>
    let name := (fipsToCounty.lookup f).getD "Unknown"
    { tooltip := some (name ++ " County")
      mouseoverHandlers := 1
      mouseoutHandlers := 1 }

/-! ## Work-zone feature layers (`wz` and the ten `where` clauses) -/

/-- The TIMS feature-service URL (`tims` in `initLayersAndUI`). -/
def tims : String :=
  "https://services.arcgis.com/NuWFvHYDMVmmxMeM/ArcGIS/rest/services/NCDOT_TIMSIncidentsByIncidentType/FeatureServer/1"

/-- The configuration `wz(where)` hands to `LEsri.featureLayer`. -/
structure WzLayer where
  url : String
  whereClause : String
  pane : String
  deriving DecidableEq

/-- The `wz` helper of `initLayersAndUI`. -/
def wz (w : String) : WzLayer :=
  { url := tims, whereClause := w, pane := "workzones" }

/-- Modelled from the spec: the spec describes the query predicate for an
incident-type label `t` as exactly `IncidentType = 't'`.  This definition
follows the spec's words; the theorems compare it with the literal strings the
source passes to `wz`. -/
def specIncidentPredicate (t : String) : String :=
  "IncidentType = '" ++ t ++ "'"

/-- `this.truckClosureLayer = wz("IncidentType = 'Truck Closure'")`. -/
def truckClosureWz : WzLayer := wz "IncidentType = 'Truck Closure'"

/-- `this.constructionLayer = wz("IncidentType = 'Construction'")`. -/
def constructionWz : WzLayer := wz "IncidentType = 'Construction'"

/-- `this.nightConstructionLayer = wz("IncidentType = 'Night Time Construction'")`. -/
def nightConstructionWz : WzLayer := wz "IncidentType = 'Night Time Construction'"

/-- `this.maintenanceLayer = wz("IncidentType = 'Maintenance'")`. -/
def maintenanceWz : WzLayer := wz "IncidentType = 'Maintenance'"

/-- `this.nightMaintenanceLayer = wz("IncidentType = 'Night Time Maintenance'")`. -/
def nightMaintenanceWz : WzLayer := wz "IncidentType = 'Night Time Maintenance'"

/-- `this.emergencyLayer = wz("IncidentType = 'Emergency Road Work'")`. -/
def emergencyWz : WzLayer := wz "IncidentType = 'Emergency Road Work'"

/-- `this.obstructionLayer = wz("IncidentType = 'Road Obstruction'")`. -/
def obstructionWz : WzLayer := wz "IncidentType = 'Road Obstruction'"

/-- `this.weatherLayer = wz("IncidentType = 'Weather Event'")`. -/
def weatherWz : WzLayer := wz "IncidentType = 'Weather Event'"

/-- `this.specialLayer = wz("IncidentType = 'Special Event'")`. -/
def specialWz : WzLayer := wz "IncidentType = 'Special Event'"

/-- `this.otherLayer = wz("IncidentType = 'Other'")`. -/
def otherWz : WzLayer := wz "IncidentType = 'Other'"

/-! ## Widget lifecycle state machine -/

/-- Identities of the map layers the `Visual` class owns (two basemaps, the
county overlay, the ten work-zone layers). -/
inductive LayerId
  | darkMap | lightMap | counties
  | truckClosure | construction | nightConstruction | maintenance
  | nightMaintenance | emergency | obstruction | weather | special | other
  deriving DecidableEq

/-- The callbacks the class hands to `requestAnimationFrame`. -/
inductive RafTask
  | initLayersAndUI
  | invalidateSize
  deriving DecidableEq

/-- The grouped layer control's configuration, as built in
`initLayersAndUI`: named base layers, named overlays under group names, and
the plugin options. -/
structure ControlState where
  baseLayers : List (String × LayerId)
  overlayGroups : List (String × List (String × LayerId))
  collapsed : Bool
  exclusiveGroups : List String
  groupCheckboxes : Bool
  deriving DecidableEq

/-- JavaScript truthiness of `this.autoRefreshTimer` (`null` and the id `0`
are falsy; browsers never hand out id 0). -/
def timerTruthy : Option Nat → Bool
  | none => false
  | some id => id != 0

/-- The timer bookkeeping: the `autoRefreshTimer` field of the class plus
the browser-side model of `setInterval`/`clearInterval` — the list of live
interval handles and the next fresh handle (real browsers hand out positive
ids, hence the model starts at 1). -/
structure TimerState where
  autoRefreshTimer : Option Nat
  activeIntervals : List Nat
  nextIntervalId : Nat
  deriving DecidableEq

/-- `if (this.autoRefreshTimer) clearInterval(this.autoRefreshTimer)`: the
guard at the top of `startAutoRefresh` and in `destroy`.  Clearing removes
the handle from the live set but does not null the field. -/
def clearIntervalGuard (t : TimerState) : TimerState :=
  if timerTruthy t.autoRefreshTimer then
    { t with activeIntervals := t.activeIntervals.erase (t.autoRefreshTimer.getD 0) }
  else t

/-- The timer effect of `startAutoRefresh(ms)`: clear any running interval,
then `if (ms > 0) this.autoRefreshTimer = window.setInterval(...)`. -/
def startAutoRefreshTimer (ms : Int) (t : TimerState) : TimerState :=
  let t := clearIntervalGuard t
  if 0 < ms then
    { autoRefreshTimer := some t.nextIntervalId
      activeIntervals := t.activeIntervals ++ [t.nextIntervalId]
      nextIntervalId := t.nextIntervalId + 1 }
  else t

/-- The mutable state of one `Visual` instance, together with the browser
resources it touches: the FIFO `requestAnimationFrame` queue, the timer
bookkeeping, the layers currently on the map in insertion order, and the
`visibilitychange` listener.  `refreshAllCount` counts the invocations of
`refreshAllLayers` (each one re-queries every existing work-zone layer). -/
structure WState where
  inited : Bool
  rafQueue : List RafTask
  mapLayers : List LayerId
  countiesLayer : Option Unit
  truckClosureLayer : Option WzLayer
  constructionLayer : Option WzLayer
  nightConstructionLayer : Option WzLayer
  maintenanceLayer : Option WzLayer
  nightMaintenanceLayer : Option WzLayer
  emergencyLayer : Option WzLayer
  obstructionLayer : Option WzLayer
  weatherLayer : Option WzLayer
  specialLayer : Option WzLayer
  otherLayer : Option WzLayer
  layerControl : Option ControlState
  collapsibleHandler : Bool
  timer : TimerState
  visListener : Bool
  refreshAllCount : Nat
  mapRemoved : Bool
  deriving DecidableEq

/-- State after the constructor: `createMapContainer` plus `initMap`, which
creates the map and panes, adds the dark basemap and creates (without
adding) the light one.  No overlays, no control, no timer, no listener. -/
def construct : WState where
  inited := false
  rafQueue := []
  mapLayers := [LayerId.darkMap]
  countiesLayer := none
  truckClosureLayer := none
  constructionLayer := none
  nightConstructionLayer := none
  maintenanceLayer := none
  nightMaintenanceLayer := none
  emergencyLayer := none
  obstructionLayer := none
  weatherLayer := none
  specialLayer := none
  otherLayer := none
  layerControl := none
  collapsibleHandler := false
  timer := { autoRefreshTimer := none, activeIntervals := [], nextIntervalId := 1 }
  visListener := false
  refreshAllCount := 0
  mapRemoved := false

/-- `refreshAllLayers`: calls `refresh()` on every existing work-zone layer;
modelled as one invocation of the re-query-all-layers action. -/
def refreshAllLayers (s : WState) : WState :=
  { s with refreshAllCount := s.refreshAllCount + 1 }

/-- `startAutoRefresh(ms)` on the instance state. -/
def startAutoRefresh (ms : Int) (s : WState) : WState :=
  { s with timer := startAutoRefreshTimer ms s.timer }

/-- The grouped layer control built in `initLayersAndUI` (`baseMaps`,
`groupedOverlays`, and the `L.control.groupedLayers` options). -/
def builtControl : ControlState where
  baseLayers := [("Dark Basemap", LayerId.darkMap), ("Light Basemap", LayerId.lightMap)]
  overlayGroups :=
    [("Boundaries", [("Counties", LayerId.counties)]),
     ("Work Zones",
      [("Truck Closure", LayerId.truckClosure),
       ("Construction", LayerId.construction),
       ("Night Construction", LayerId.nightConstruction),
       ("Maintenance", LayerId.maintenance),
       ("Night Time Maintenance", LayerId.nightMaintenance),
       ("Emergency Road Work", LayerId.emergency),
       ("Road Obstruction", LayerId.obstruction),
       ("Weather Event", LayerId.weather),
       ("Special Event", LayerId.special),
       ("Other", LayerId.other)])]
  collapsed := false
  exclusiveGroups := ["Boundaries"]
  groupCheckboxes := false

/-- `initLayersAndUI`: creates and adds the county overlay, creates the ten
work-zone layers, adds the Construction one to the map, builds and adds the
grouped layer control, registers the `overlayadd overlayremove
baselayerchange` handler, starts the 6-hour auto refresh, and attaches the
`visibilitychange` listener. -/
def initLayersAndUI (s : WState) : WState :=
  let s := { s with
    countiesLayer := some ()
    mapLayers := s.mapLayers ++ [LayerId.counties]
    truckClosureLayer := some truckClosureWz
    constructionLayer := some constructionWz
    nightConstructionLayer := some nightConstructionWz
    maintenanceLayer := some maintenanceWz
    nightMaintenanceLayer := some nightMaintenanceWz
    emergencyLayer := some emergencyWz
    obstructionLayer := some obstructionWz
    weatherLayer := some weatherWz
    specialLayer := some specialWz
    otherLayer := some otherWz }
  let s := { s with mapLayers := s.mapLayers ++ [LayerId.construction] }
  let s := { s with layerControl := some builtControl, collapsibleHandler := true }
  let s := startAutoRefresh (6 * 60 * 60 * 1000) s
  { s with visListener := true }

/-- One `update(options)` call: on the first call, set `inited` and schedule
`initLayersAndUI` for the next animation frame; always schedule
`invalidateSize`.  (The remaining body only logs the incoming data view.) -/
def update (s : WState) : WState :=
  let s :=
    if s.inited then s
    else { s with inited := true, rafQueue := s.rafQueue ++ [RafTask.initLayersAndUI] }
  { s with rafQueue := s.rafQueue ++ [RafTask.invalidateSize] }

/-- Run one queued animation-frame callback (FIFO); `invalidateSize` has no
effect on the modelled state. -/
def runRaf (s : WState) : WState :=
  match s.rafQueue with
  | [] => s
  | RafTask.initLayersAndUI :: rest => initLayersAndUI { s with rafQueue := rest }
  | RafTask.invalidateSize :: rest => { s with rafQueue := rest }

/-- `destroy()`: clear the interval if the field is truthy (without nulling
the field), remove the `visibilitychange` listener, remove the map. -/
def destroy (s : WState) : WState :=
  { s with
    timer := clearIntervalGuard s.timer
    visListener := false
    mapRemoved := true }

/-- `document.visibilityState` values the listener distinguishes. -/
inductive Vis
  | visible | hidden
  deriving DecidableEq

/-- The bound `onVisibilityRefresh` arrow function: refresh all layers only
when the page became visible. -/
def onVisibilityRefresh (v : Vis) (s : WState) : WState :=
  if v = Vis.visible then refreshAllLayers s else s

/-- Browser dispatch of one `visibilitychange` event: the listener runs only
while it is attached. -/
def visibilityEvent (v : Vis) (s : WState) : WState :=
  if s.visListener then onVisibilityRefresh v s else s

/-- Dispatch a sequence of `visibilitychange` events in order. -/
def runVisEvents (vs : List Vis) (s : WState) : WState :=
  vs.foldl (fun s v => visibilityEvent v s) s

/-- Number of queued `initLayersAndUI` animation-frame callbacks. -/
def countInit : List RafTask → Nat
  | [] => 0
  | RafTask.initLayersAndUI :: r => countInit r + 1
  | RafTask.invalidateSize :: r => countInit r

/-- The `Constructed` state of the spec's host-adapter machine: no overlay
layers, no layer control, no refresh timer (field and live handles), no
visibility listener. -/
def constructedState (s : WState) : Prop :=
  s.countiesLayer = none ∧
  s.truckClosureLayer = none ∧ s.constructionLayer = none ∧
  s.nightConstructionLayer = none ∧ s.maintenanceLayer = none ∧
  s.nightMaintenanceLayer = none ∧ s.emergencyLayer = none ∧
  s.obstructionLayer = none ∧ s.weatherLayer = none ∧
  s.specialLayer = none ∧ s.otherLayer = none ∧
  s.layerControl = none ∧
  s.timer.autoRefreshTimer = none ∧ s.timer.activeIntervals = [] ∧
  s.visListener = false

/-- The state reached by `construct`, a first `update`, and the deferred
animation-frame tick that runs `initLayersAndUI`. -/
def afterInit : WState := runRaf (update construct)

/-- The ten incident layer identities. -/
def incidentLayerIds : List LayerId :=
  [LayerId.truckClosure, LayerId.construction, LayerId.nightConstruction,
   LayerId.maintenance, LayerId.nightMaintenance, LayerId.emergency,
   LayerId.obstruction, LayerId.weather, LayerId.special, LayerId.other]

/-- Whether layer `l` is registered under group `g` in the state's layer
control. -/
def inControlGroup (s : WState) (g : String) (l : LayerId) : Bool :=
  match s.layerControl with
  | none => false
  | some c =>
    match c.overlayGroups.lookup g with
    | none => false
    | some entries => entries.any (fun e => decide (e.2 = l))

/-- Whether layer `l` is registered as a base layer in the state's layer
control. -/
def inControlBase (s : WState) (l : LayerId) : Bool :=
  match s.layerControl with
  | none => false
  | some c => c.baseLayers.any (fun e => decide (e.2 = l))

/-- The base layers registered with the control but not currently on the
map. -/
def unrenderedBaseLayers (s : WState) : List LayerId :=
  match s.layerControl with
  | none => []
  | some c => (c.baseLayers.map Prod.snd).filter (fun b => decide (b ∉ s.mapLayers))

/-! ## Collapsible group wiring (`makeGroupedLayerCollapsible`) -/

/-- The DOM state of one rendered group header (`headerLabel`):
the `_gliWired` expando marker, the presence of a `.gli-caret` child, the
numbers of attached `click` and `keydown` handlers, the cursor style, and the
`is-collapsed` class. -/
structure HeaderState where
  gliWired : Bool
  hasCaret : Bool
  clickHandlers : Nat
  keydownHandlers : Nat
  cursorPointer : Bool
  collapsedClass : Bool
  deriving DecidableEq

/-- One rendered control group: its header and the `display:none` flags of
the member elements (the non-header children of the group root). -/
structure GroupState where
  header : HeaderState
  itemsHidden : List Bool
  deriving DecidableEq

/-- The `setCollapsed` closure: set every member's inline display and toggle
the header's `is-collapsed` class. -/
def setCollapsed (c : Bool) (g : GroupState) : GroupState :=
  { g with
    itemsHidden := g.itemsHidden.map (fun _ => c)
    header := { g.header with collapsedClass := c } }

/-- The `toggle` closure: collapse iff the first member is currently shown
(`!(items[0]?.style.display === "none")`; an empty member list reads as
`undefined === "none"`, i.e. not hidden). -/
def toggleGroup (g : GroupState) : GroupState :=
  setCollapsed (!(g.itemsHidden.headD false)) g

/-- `makeGroupedLayerCollapsible` acting on one located group (`none` models
a missing container or an unmatched group name, where the method returns
early).  When the header is not yet `_gliWired`: mark it, insert the caret if
absent, attach one `click` and one `keydown` handler, set the pointer cursor,
and finish with `setCollapsed(true)`. -/
def makeGroupedLayerCollapsible : Option GroupState → Option GroupState
  | none => none
  | some g =>
    if g.header.gliWired then some g
    else
      let h := { g.header with gliWired := true }
      let h := if h.hasCaret then h else { h with hasCaret := true }
      let h := { h with
        cursorPointer := true
        clickHandlers := h.clickHandlers + 1
        keydownHandlers := h.keydownHandlers + 1 }
      some (setCollapsed true { g with header := h })

/-- Browser dispatch of one click on the header: every attached `click`
handler runs once, and each attached handler is the `toggle` closure. -/
def clickHeader (g : GroupState) : GroupState :=
  toggleGroup^[g.header.clickHandlers] g

end LeafletPBI

namespace LeafletPBI

/-! ## Theorems: tooltip label mappings (C6, C7, C8, C9, C10 groundwork) -/

/-- Evaluating `jsOr` at a present-but-empty string gives the fallback. -/
theorem jsOr_empty (d : String) : jsOr (some "") d = d := by
  simp [jsOr]

/-- Evaluating `jsOr` at an absent value gives the fallback. -/
theorem jsOr_none (d : String) : jsOr none d = d := rfl

/-- C6: for each of the ten incident-type categories, the `where` predicate
string the source passes to the remote feature source is exactly
`IncidentType = '<Type>'` with the corresponding fixed label. -/
theorem c6_incident_predicates :
    truckClosureWz.whereClause = specIncidentPredicate "Truck Closure" ∧
    constructionWz.whereClause = specIncidentPredicate "Construction" ∧
    nightConstructionWz.whereClause = specIncidentPredicate "Night Time Construction" ∧
    maintenanceWz.whereClause = specIncidentPredicate "Maintenance" ∧
    nightMaintenanceWz.whereClause = specIncidentPredicate "Night Time Maintenance" ∧
    emergencyWz.whereClause = specIncidentPredicate "Emergency Road Work" ∧
    obstructionWz.whereClause = specIncidentPredicate "Road Obstruction" ∧
    weatherWz.whereClause = specIncidentPredicate "Weather Event" ∧
    specialWz.whereClause = specIncidentPredicate "Special Event" ∧
    otherWz.whereClause = specIncidentPredicate "Other" :=
  ⟨rfl, rfl, rfl, rfl, rfl, rfl, rfl, rfl, rfl, rfl⟩

/-- C7: the Severity mapping sends 1/2/3 to Low/Medium/High and everything
else (missing included) to "Not Provided"; the Direction mapping sends
N/S/E/W/A/O to North/South/East/West/All/Outer and everything else (missing
included) to "Not Provided". -/
theorem c7_label_mappings :
    sevLabel (some 1) = "Low" ∧
    sevLabel (some 2) = "Medium" ∧
    sevLabel (some 3) = "High" ∧
    sevLabel none = "Not Provided" ∧
    (∀ sv : Option Int, sv ≠ some 1 → sv ≠ some 2 → sv ≠ some 3 →
      sevLabel sv = "Not Provided") ∧
    directionLabel (some "N") = "North" ∧
    directionLabel (some "S") = "South" ∧
    directionLabel (some "E") = "East" ∧
    directionLabel (some "W") = "West" ∧
    directionLabel (some "A") = "All" ∧
    directionLabel (some "O") = "Outer" ∧
    directionLabel none = "Not Provided" ∧
    (∀ s : String, s ∉ ["N", "S", "E", "W", "A", "O"] →
      directionLabel (some s) = "Not Provided") := by
  refine ⟨rfl, rfl, rfl, rfl, ?_, rfl, rfl, rfl, rfl, rfl, rfl, rfl, ?_⟩
  · intro sv h1 h2 h3
    simp [sevLabel, h1, h2, h3]
  · intro s hs
    simp only [List.mem_cons, List.not_mem_nil, or_false, not_or] at hs
    obtain ⟨n1, n2, n3, n4, n5, n6⟩ := hs
    have e1 : (s == "N") = false := beq_eq_false_iff_ne.mpr n1
    have e2 : (s == "S") = false := beq_eq_false_iff_ne.mpr n2
    have e3 : (s == "E") = false := beq_eq_false_iff_ne.mpr n3
    have e4 : (s == "W") = false := beq_eq_false_iff_ne.mpr n4
    have e5 : (s == "A") = false := beq_eq_false_iff_ne.mpr n5
    have e6 : (s == "O") = false := beq_eq_false_iff_ne.mpr n6
    simp [directionLabel, dirMap, jsOr, List.lookup, e1, e2, e3, e4, e5, e6]

/-- Witness for C7 at concrete out-of-range inputs. -/
theorem c7_label_mappings_witness :
    sevLabel (some 5) = "Not Provided" ∧
    directionLabel (some "Q") = "Not Provided" := by
  obtain ⟨-, -, -, -, hsev, -, -, -, -, -, -, -, hdir⟩ := c7_label_mappings
  exact ⟨hsev (some 5) (by decide) (by decide) (by decide), hdir "Q" (by decide)⟩

/-- C8: in the county tooltip, a FIPS code present in the lookup table
resolves to its mapped county name and an absent code resolves to "Unknown";
the tooltip text is the resolved name followed by " County". -/
theorem c8_fips_lookup (tbl : List (Int × String)) (f : Int) :
    (∀ name, tbl.lookup f = some name →
      (countyOnEachFeature tbl (some f)).tooltip = some (name ++ " County")) ∧
    (tbl.lookup f = none →
      (countyOnEachFeature tbl (some f)).tooltip = some "Unknown County") := by
  constructor
  · intro name h
    simp [countyOnEachFeature, h]
  · intro h
    simp [countyOnEachFeature, h]

/-- Witness for C8 on a concrete two-entry table. -/
theorem c8_fips_lookup_witness :
    (countyOnEachFeature [((37001 : Int), "Alamance"), ((37003 : Int), "Alexander")]
        (some 37003)).tooltip = some "Alexander County" ∧
    (countyOnEachFeature [((37001 : Int), "Alamance"), ((37003 : Int), "Alexander")]
        (some 37005)).tooltip = some "Unknown County" :=
  ⟨(c8_fips_lookup [(37001, "Alamance"), (37003, "Alexander")] 37003).1
      "Alexander" (by decide),
   (c8_fips_lookup [(37001, "Alamance"), (37003, "Alexander")] 37005).2 (by decide)⟩

/-- C9: a county feature whose FIPS property is null/undefined gets no bound
tooltip and no mouseover/mouseout handlers; the "Unknown" fallback (with the
handlers) occurs only when a FIPS value is present but absent from the
table. -/
theorem c9_null_fips_no_binding (tbl : List (Int × String)) :
    countyOnEachFeature tbl none =
      { tooltip := none, mouseoverHandlers := 0, mouseoutHandlers := 0 } ∧
    (∀ f : Int, tbl.lookup f = none →
      countyOnEachFeature tbl (some f) =
        { tooltip := some "Unknown County"
          mouseoverHandlers := 1
          mouseoutHandlers := 1 }) := by
  refine ⟨rfl, ?_⟩
  intro f h
  simp [countyOnEachFeature, h]

/-- Witness for C9 on a concrete table and absent code. -/
theorem c9_null_fips_no_binding_witness :
    countyOnEachFeature [((37001 : Int), "Alamance")] none =
      { tooltip := none, mouseoverHandlers := 0, mouseoutHandlers := 0 } ∧
    countyOnEachFeature [((37001 : Int), "Alamance")] (some 99) =
      { tooltip := some "Unknown County"
        mouseoverHandlers := 1
        mouseoutHandlers := 1 } :=
  ⟨(c9_null_fips_no_binding [(37001, "Alamance")]).1,
   (c9_null_fips_no_binding [(37001, "Alamance")]).2 99 (by decide)⟩

set_option maxRecDepth 8000 in
/-- C10: a present-but-falsy free-text property renders the same placeholder
as an absent one, for each of the seven free-text fields; the placeholders
are per-field (City: "Unknown City", CountyName: "Unknown", the rest: "Not
Provided"), as the all-absent tooltip shows. -/
theorem c10_falsy_placeholders :
    (∀ p : WorkzoneProps,
      workzoneLabel { p with IncidentType := some "" } =
        workzoneLabel { p with IncidentType := none }) ∧
    (∀ p : WorkzoneProps,
      workzoneLabel { p with Condition := some "" } =
        workzoneLabel { p with Condition := none }) ∧
    (∀ p : WorkzoneProps,
      workzoneLabel { p with City := some "" } =
        workzoneLabel { p with City := none }) ∧
    (∀ p : WorkzoneProps,
      workzoneLabel { p with CountyName := some "" } =
        workzoneLabel { p with CountyName := none }) ∧
    (∀ p : WorkzoneProps,
      workzoneLabel { p with Road := some "" } =
        workzoneLabel { p with Road := none }) ∧
    (∀ p : WorkzoneProps,
      workzoneLabel { p with Reason := some "" } =
        workzoneLabel { p with Reason := none }) ∧
    (∀ p : WorkzoneProps,
      workzoneLabel { p with EndDateET := some "" } =
        workzoneLabel { p with EndDateET := none }) ∧
    workzoneLabel ⟨none, none, none, none, none, none, none, none, none⟩ =
      "<strong>Type:</strong> Not Provided<br/>\n                     " ++
      "<strong>Impact Level:</strong> Not Provided<br/>\n                     " ++
      "<strong>Condition:</strong> Not Provided<br/>\n                     " ++
      "<strong>Place:</strong> Unknown City, Unknown County<br/>\n                     " ++
      "<strong>Road:</strong> Not Provided<br/>\n                     " ++
      "<strong>Direction:</strong> Not Provided<br/>\n                     " ++
      "<strong>Reason:</strong> Not Provided<br/>\n                     " ++
      "<strong>Until:</strong> Not Provided" := by
  refine ⟨?_, ?_, ?_, ?_, ?_, ?_, ?_, by decide⟩ <;>
    intro p <;> simp [workzoneLabel, jsOr_empty, jsOr_none]

/-! ## Lifecycle lemmas -/

/-- `countInit` distributes over append. -/
theorem countInit_append (l1 l2 : List RafTask) :
    countInit (l1 ++ l2) = countInit l1 + countInit l2 := by
  induction l1 with
  | nil => simp [countInit]
  | cons t r ih =>
    cases t
    · show countInit (r ++ l2) + 1 = countInit r + 1 + countInit l2
      rw [ih]
      omega
    · show countInit (r ++ l2) = countInit r + countInit l2
      exact ih

/-- A run of `invalidateSize` tasks contains no init task. -/
theorem countInit_replicate_inval (k : Nat) :
    countInit (List.replicate k RafTask.invalidateSize) = 0 := by
  induction k with
  | zero => rfl
  | succ k ih => simpa [List.replicate_succ, countInit] using ih

/-- After any `update`, the `inited` guard is set. -/
theorem update_inited (s : WState) : (update s).inited = true := by
  unfold update
  split
  · simp_all
  · rfl

/-- Once `inited` is set, an `update` only enqueues an `invalidateSize`
animation-frame callback. -/
theorem update_of_inited {s : WState} (h : s.inited = true) :
    update s = { s with rafQueue := s.rafQueue ++ [RafTask.invalidateSize] } := by
  unfold update
  rw [if_pos h]

/-- Iterating `update` from an already-inited state only appends
`invalidateSize` callbacks. -/
theorem iterate_update_of_inited (k : Nat) (s : WState) (h : s.inited = true) :
    update^[k] s =
      { s with rafQueue := s.rafQueue ++ List.replicate k RafTask.invalidateSize } := by
  induction k generalizing s with
  | zero => simp
  | succ k ih =>
    rw [Function.iterate_succ_apply, update_of_inited h, ih _ (by exact h)]
    simp [List.replicate_succ]

/-- The first `update` call from the constructed state. -/
theorem update_construct :
    update construct =
      { construct with
        inited := true
        rafQueue := [RafTask.initLayersAndUI, RafTask.invalidateSize] } := rfl

/-- `initLayersAndUI` leaves the animation-frame queue and the `inited`
guard untouched. -/
theorem initLayersAndUI_frame (s : WState) :
    (initLayersAndUI s).rafQueue = s.rafQueue ∧
    (initLayersAndUI s).inited = s.inited :=
  ⟨rfl, rfl⟩

/-- C1: before the deferred animation-frame tick runs, a widget that has
received any positive number of `update` notifications is still in the
`Constructed` state (no overlay layers, no layer control, no refresh timer,
no visibility listener), exactly one `initLayersAndUI` callback has been
scheduled, and after that callback runs no later `update` ever schedules a
second one. -/
theorem c1_deferred_init_once (n m : Nat) (hn : 1 ≤ n) :
    constructedState (update^[n] construct) ∧
    countInit (update^[n] construct).rafQueue = 1 ∧
    countInit ((update^[m] (runRaf (update^[n] construct))).rafQueue) = 0 := by
  obtain ⟨k, rfl⟩ : ∃ k, n = k + 1 := ⟨n - 1, by omega⟩
  have hstate : update^[k + 1] construct =
      { construct with
        inited := true
        rafQueue := [RafTask.initLayersAndUI, RafTask.invalidateSize] ++
          List.replicate k RafTask.invalidateSize } := by
    rw [Function.iterate_succ_apply, update_construct,
      iterate_update_of_inited k _ rfl]
  refine ⟨?_, ?_, ?_⟩
  · rw [hstate]
    exact ⟨rfl, rfl, rfl, rfl, rfl, rfl, rfl, rfl, rfl, rfl, rfl, rfl, rfl, rfl, rfl⟩
  · rw [hstate, countInit_append, countInit_replicate_inval]
    rfl
  · rw [hstate]
    have hrun : runRaf
        { construct with
          inited := true
          rafQueue := [RafTask.initLayersAndUI, RafTask.invalidateSize] ++
            List.replicate k RafTask.invalidateSize } =
        initLayersAndUI
          { construct with
            inited := true
            rafQueue := RafTask.invalidateSize :: List.replicate k RafTask.invalidateSize } := by
      rfl
    rw [hrun,
      iterate_update_of_inited m _ (initLayersAndUI_frame _).2,
      countInit_append, countInit_replicate_inval, (initLayersAndUI_frame _).1]
    simpa [countInit] using countInit_replicate_inval k

/-- Witness for C1: one `update`, the deferred tick, then two more
updates. -/
theorem c1_deferred_init_once_witness :
    constructedState (update^[1] construct) ∧
    countInit (update^[1] construct).rafQueue = 1 ∧
    countInit ((update^[2] (runRaf (update^[1] construct))).rafQueue) = 0 :=
  c1_deferred_init_once 1 2 (by decide)

/-! ## Timer discipline (C2) -/

/-- Consistency of the timer bookkeeping: interval ids are positive, at most
one interval is live, and any live interval is the one stored in
`autoRefreshTimer`. -/
def timerInv (t : TimerState) : Prop :=
  1 ≤ t.nextIntervalId ∧
  t.activeIntervals.length ≤ 1 ∧
  ∀ id ∈ t.activeIntervals, t.autoRefreshTimer = some id ∧ 1 ≤ id

/-- `clearIntervalGuard` does not touch the fresh-id counter. -/
theorem clearIntervalGuard_nextId (t : TimerState) :
    (clearIntervalGuard t).nextIntervalId = t.nextIntervalId := by
  unfold clearIntervalGuard
  split <;> rfl

/-- Under the invariant, the `clearInterval` guard always leaves zero live
intervals: either no interval is live, or the single live one is the stored
handle being cleared. -/
theorem clearIntervalGuard_clears (t : TimerState) (h : timerInv t) :
    (clearIntervalGuard t).activeIntervals = [] := by
  obtain ⟨-, hlen, hmem⟩ := h
  unfold clearIntervalGuard
  rcases hq : t.activeIntervals with - | ⟨a, rest⟩
  · split <;> simp [hq]
  · rcases rest with - | ⟨b, rest⟩
    · obtain ⟨ht, ha⟩ := hmem a (by rw [hq]; exact List.mem_singleton_self a)
      have htt : timerTruthy t.autoRefreshTimer = true := by
        rw [ht]
        simp only [timerTruthy, bne_iff_ne, ne_eq]
        omega
      rw [if_pos htt]
      simp [hq, ht]
    · rw [hq] at hlen
      simp at hlen

/-- `clearIntervalGuard` restores the invariant. -/
theorem clearIntervalGuard_pres (t : TimerState) (h : timerInv t) :
    timerInv (clearIntervalGuard t) := by
  refine ⟨?_, ?_, ?_⟩
  · rw [clearIntervalGuard_nextId]
    exact h.1
  · rw [clearIntervalGuard_clears t h]
    simp
  · intro id hid
    rw [clearIntervalGuard_clears t h] at hid
    exact absurd hid (List.not_mem_nil id)

/-- `startAutoRefreshTimer` restores the invariant; for a positive interval
the fresh id is the only live one and the counter advances. -/
theorem startAutoRefreshTimer_pres (ms : Int) (t : TimerState) (h : timerInv t) :
    timerInv (startAutoRefreshTimer ms t) ∧
    (0 < ms →
      (startAutoRefreshTimer ms t).activeIntervals = [t.nextIntervalId] ∧
      (startAutoRefreshTimer ms t).nextIntervalId = t.nextIntervalId + 1) := by
  have hclear := clearIntervalGuard_clears t h
  have hnext := clearIntervalGuard_nextId t
  simp only [startAutoRefreshTimer]
  by_cases hms : 0 < ms
  · rw [if_pos hms]
    refine ⟨⟨?_, ?_, ?_⟩, fun _ => ⟨?_, ?_⟩⟩
    · show 1 ≤ (clearIntervalGuard t).nextIntervalId + 1
      omega
    · show ((clearIntervalGuard t).activeIntervals ++ [(clearIntervalGuard t).nextIntervalId]).length ≤ 1
      rw [hclear]
      simp
    · intro id hid
      simp only [hclear, List.nil_append, List.mem_singleton] at hid
      subst hid
      rw [hnext]
      exact ⟨rfl, h.1⟩
    · show (clearIntervalGuard t).activeIntervals ++ [(clearIntervalGuard t).nextIntervalId] = [t.nextIntervalId]
      rw [hclear, hnext]
      rfl
    · show (clearIntervalGuard t).nextIntervalId + 1 = t.nextIntervalId + 1
      rw [hnext]
  · rw [if_neg hms]
    exact ⟨clearIntervalGuard_pres t h, fun hc => absurd hc hms⟩

/-- `update` does not touch the timer bookkeeping. -/
theorem update_timer (s : WState) : (update s).timer = s.timer := by
  unfold update
  split <;> rfl

/-- A `visibilitychange` dispatch does not touch the timer bookkeeping. -/
theorem visibilityEvent_timer (v : Vis) (s : WState) :
    (visibilityEvent v s).timer = s.timer := by
  unfold visibilityEvent onVisibilityRefresh refreshAllLayers
  split
  · split <;> rfl
  · rfl

/-- C2: the widget holds at most one live refresh interval at all times: the
timer invariant holds at construction and is preserved by `update`, by any
animation-frame tick (in particular the `initLayersAndUI` one, which calls
`startAutoRefresh`), by `startAutoRefresh` itself, by visibility events, and
by `destroy`; starting auto-refresh twice in succession leaves exactly one
live interval, and `destroy` leaves zero. -/
theorem c2_at_most_one_timer (s : WState) (ms ms1 ms2 : Int)
    (h : timerInv s.timer) (h1 : 0 < ms1) (h2 : 0 < ms2) :
    timerInv construct.timer ∧
    timerInv (startAutoRefresh ms s).timer ∧
    timerInv (update s).timer ∧
    timerInv (runRaf s).timer ∧
    (∀ v, timerInv (visibilityEvent v s).timer) ∧
    timerInv (destroy s).timer ∧
    (startAutoRefresh ms2 (startAutoRefresh ms1 s)).timer.activeIntervals =
      [s.timer.nextIntervalId + 1] ∧
    (destroy s).timer.activeIntervals = [] := by
  refine ⟨?_, ?_, ?_, ?_, ?_, ?_, ?_, ?_⟩
  · exact ⟨le_refl 1, by simp [construct], by simp [construct]⟩
  · exact (startAutoRefreshTimer_pres ms s.timer h).1
  · rw [update_timer]
    exact h
  · show timerInv (runRaf s).timer
    unfold runRaf
    rcases hq : s.rafQueue with - | ⟨t0, rest⟩
    · exact h
    · rcases t0 with - | -
      · exact (startAutoRefreshTimer_pres (6 * 60 * 60 * 1000) s.timer h).1
      · exact h
  · intro v
    rw [visibilityEvent_timer]
    exact h
  · exact clearIntervalGuard_pres s.timer h
  · show (startAutoRefreshTimer ms2 (startAutoRefreshTimer ms1 s.timer)).activeIntervals =
      [s.timer.nextIntervalId + 1]
    have p1 := startAutoRefreshTimer_pres ms1 s.timer h
    have p2 := startAutoRefreshTimer_pres ms2 (startAutoRefreshTimer ms1 s.timer) p1.1
    rw [(p2.2 h2).1, (p1.2 h1).2]
  · exact clearIntervalGuard_clears s.timer h

/-- Witness for C2 at the freshly constructed widget and 6-hour intervals. -/
theorem c2_at_most_one_timer_witness :
    timerInv construct.timer ∧
    timerInv (startAutoRefresh 21600000 construct).timer ∧
    timerInv (update construct).timer ∧
    timerInv (runRaf construct).timer ∧
    timerInv (visibilityEvent Vis.visible construct).timer ∧
    timerInv (destroy construct).timer ∧
    (startAutoRefresh 21600000 (startAutoRefresh 21600000 construct)).timer.activeIntervals =
      [construct.timer.nextIntervalId + 1] ∧
    (destroy construct).timer.activeIntervals = [] := by
  have hc := c2_at_most_one_timer construct 21600000 21600000 21600000
    ⟨by decide, by decide, by intro id hid; exact absurd hid (List.not_mem_nil id)⟩
    (by decide) (by decide)
  exact ⟨hc.1, hc.2.1, hc.2.2.1, hc.2.2.2.1, hc.2.2.2.2.1 Vis.visible,
    hc.2.2.2.2.2.1, hc.2.2.2.2.2.2.1, hc.2.2.2.2.2.2.2⟩

/-! ## Collapsible wiring (C3) -/

/-- Wiring an already-wired group is the identity. -/
theorem make_wired_noop (g : GroupState) (hw : g.header.gliWired = true) :
    makeGroupedLayerCollapsible (some g) = some g := by
  simp only [makeGroupedLayerCollapsible]
  rw [if_pos hw]

/-- Wiring a fresh header marks it, ensures the caret, attaches one click
and one keydown handler, sets the pointer cursor, and collapses the
group. -/
theorem make_unwired_eq (g : GroupState) (hw : g.header.gliWired = false) :
    makeGroupedLayerCollapsible (some g) =
      some { header :=
               { gliWired := true
                 hasCaret := true
                 clickHandlers := g.header.clickHandlers + 1
                 keydownHandlers := g.header.keydownHandlers + 1
                 cursorPointer := true
                 collapsedClass := true }
             itemsHidden := g.itemsHidden.map (fun _ => true) } := by
  simp only [makeGroupedLayerCollapsible, setCollapsed, hw, Bool.false_eq_true,
    if_false]
  split
  · rename_i hcar
    simp_all
  · rfl

/-- Any group produced by the wiring operation has its `_gliWired` marker
set. -/
theorem make_result_wired (g : GroupState) (g1 : GroupState)
    (h : makeGroupedLayerCollapsible (some g) = some g1) :
    g1.header.gliWired = true := by
  by_cases hw : g.header.gliWired = true
  · rw [make_wired_noop g hw] at h
    injection h with h2
    rw [← h2]
    exact hw
  · rw [make_unwired_eq g (eq_false_of_ne_true hw)] at h
    injection h with h2
    rw [← h2]

/-- The wiring operation never drops a located group. -/
theorem make_some (g : GroupState) :
    ∃ g1, makeGroupedLayerCollapsible (some g) = some g1 := by
  by_cases hw : g.header.gliWired = true
  · exact ⟨g, make_wired_noop g hw⟩
  · exact ⟨_, make_unwired_eq g (eq_false_of_ne_true hw)⟩

/-- C3: `makeGroupedLayerCollapsible` is idempotent on any group (including
an unlocated one), and wiring a fresh header twice attaches exactly one
click handler, so a single click on the twice-wired header performs exactly
one toggle. -/
theorem c3_wiring_idempotent (g : Option GroupState) (g0 : GroupState)
    (hw : g0.header.gliWired = false) (hc : g0.header.clickHandlers = 0) :
    makeGroupedLayerCollapsible (makeGroupedLayerCollapsible g) =
      makeGroupedLayerCollapsible g ∧
    ∀ g1, makeGroupedLayerCollapsible (some g0) = some g1 →
      makeGroupedLayerCollapsible (some g1) = some g1 ∧
      g1.header.clickHandlers = 1 ∧
      clickHeader g1 = toggleGroup g1 := by
  constructor
  · rcases g with - | g2
    · rfl
    · obtain ⟨g1, hg1⟩ := make_some g2
      rw [hg1, make_wired_noop g1 (make_result_wired g2 g1 hg1)]
  · intro g1 h
    have hnoop := make_wired_noop g1 (make_result_wired g0 g1 h)
    have hch : g1.header.clickHandlers = 1 := by
      rw [make_unwired_eq g0 hw] at h
      injection h with h2
      rw [← h2, hc]
    refine ⟨hnoop, hch, ?_⟩
    unfold clickHeader
    rw [hch]
    exact congrFun (Function.iterate_one toggleGroup) g1

/-- Witness for C3: a freshly rendered two-member group. -/
theorem c3_wiring_idempotent_witness :
    makeGroupedLayerCollapsible (makeGroupedLayerCollapsible
        (some ⟨⟨false, false, 0, 0, false, false⟩, [false, false]⟩)) =
      makeGroupedLayerCollapsible
        (some ⟨⟨false, false, 0, 0, false, false⟩, [false, false]⟩) ∧
    makeGroupedLayerCollapsible
        (some ⟨⟨true, true, 1, 1, true, true⟩, [true, true]⟩) =
      some ⟨⟨true, true, 1, 1, true, true⟩, [true, true]⟩ ∧
    HeaderState.clickHandlers ⟨true, true, 1, 1, true, true⟩ = 1 ∧
    clickHeader ⟨⟨true, true, 1, 1, true, true⟩, [true, true]⟩ =
      toggleGroup ⟨⟨true, true, 1, 1, true, true⟩, [true, true]⟩ := by
  have hc3 := c3_wiring_idempotent
    (some ⟨⟨false, false, 0, 0, false, false⟩, [false, false]⟩)
    ⟨⟨false, false, 0, 0, false, false⟩, [false, false]⟩ rfl rfl
  have h2 := hc3.2 ⟨⟨true, true, 1, 1, true, true⟩, [true, true]⟩ rfl
  exact ⟨hc3.1, h2.1, h2.2.1, h2.2.2⟩

/-! ## Visibility-driven re-query (C4) -/

/-- Dispatching a `visibilitychange` event never detaches the listener. -/
theorem visibilityEvent_visListener (v : Vis) (s : WState) :
    (visibilityEvent v s).visListener = s.visListener := by
  unfold visibilityEvent onVisibilityRefresh refreshAllLayers
  split
  · split <;> rfl
  · rfl

/-- With the listener attached, one `visibilitychange` dispatch re-queries
all layers exactly when the new state is visible. -/
theorem visibilityEvent_count (v : Vis) (s : WState) (hl : s.visListener = true) :
    (visibilityEvent v s).refreshAllCount =
      s.refreshAllCount + (if v = Vis.visible then 1 else 0) := by
  unfold visibilityEvent onVisibilityRefresh refreshAllLayers
  rw [if_pos hl]
  by_cases hv : v = Vis.visible
  · rw [if_pos hv, if_pos hv]
  · rw [if_neg hv, if_neg hv]
    omega

/-- With the listener attached, a sequence of visibility changes triggers
one re-query per transition to visible. -/
theorem runVisEvents_count (vs : List Vis) (s : WState) (hl : s.visListener = true) :
    (runVisEvents vs s).refreshAllCount =
      s.refreshAllCount + vs.countP (fun v => decide (v = Vis.visible)) := by
  induction vs generalizing s with
  | nil => simp [runVisEvents]
  | cons v rest ih =>
    have h2 : (visibilityEvent v s).visListener = true := by
      rw [visibilityEvent_visListener]
      exact hl
    show (runVisEvents rest (visibilityEvent v s)).refreshAllCount = _
    rw [ih _ h2, visibilityEvent_count v s hl, List.countP_cons]
    rcases v with - | - <;> simp
    all_goals omega

/-- C4: while the listener is attached, the re-query-all-layers action fires
exactly on transitions to visible and never on transitions to hidden; in
particular a hidden-then-visible sequence fires exactly one re-query, and it
has not yet fired after the hidden transition alone. -/
theorem c4_visible_requery (s : WState) (hl : s.visListener = true) :
    (∀ vs : List Vis, (runVisEvents vs s).refreshAllCount =
        s.refreshAllCount + vs.countP (fun v => decide (v = Vis.visible))) ∧
    (visibilityEvent Vis.hidden s).refreshAllCount = s.refreshAllCount ∧
    (visibilityEvent Vis.visible s).refreshAllCount = s.refreshAllCount + 1 ∧
    (runVisEvents [Vis.hidden, Vis.visible] s).refreshAllCount =
      s.refreshAllCount + 1 := by
  refine ⟨fun vs => runVisEvents_count vs s hl, ?_, ?_, ?_⟩
  · rw [visibilityEvent_count Vis.hidden s hl]
    simp
  · rw [visibilityEvent_count Vis.visible s hl]
    simp
  · rw [runVisEvents_count [Vis.hidden, Vis.visible] s hl]
    rfl

/-- Witness for C4 at the initialized widget (whose listener is attached). -/
theorem c4_visible_requery_witness :
    (visibilityEvent Vis.hidden afterInit).refreshAllCount =
      afterInit.refreshAllCount ∧
    (visibilityEvent Vis.visible afterInit).refreshAllCount =
      afterInit.refreshAllCount + 1 ∧
    (runVisEvents [Vis.hidden, Vis.visible] afterInit).refreshAllCount =
      afterInit.refreshAllCount + 1 := by
  have h := c4_visible_requery afterInit rfl
  exact ⟨h.2.1, h.2.2.1, h.2.2.2⟩

/-! ## Initial layer visibility (C5) -/

/-- C5 counterexample: the claim says both non-default basemaps are
registered but not rendered at initialization; in fact exactly one
registered basemap (the light one) is off the map — the dark basemap was
already added to the map by the constructor. -/
theorem c5_both_basemaps_counterexample :
    (unrenderedBaseLayers afterInit).length ≠ 2 ∧
    unrenderedBaseLayers afterInit = [LayerId.lightMap] := by
  constructor
  · decide
  · decide

/-- C5 (amended): immediately after layer initialization exactly one
incident layer — Construction — is on the map, all ten incident layers are
registered under the "Work Zones" group of the layer control, and the single
non-default basemap (the light one) is registered with the control but not
rendered. -/
theorem c5_default_visibility :
    incidentLayerIds.filter (fun l => decide (l ∈ afterInit.mapLayers)) =
      [LayerId.construction] ∧
    incidentLayerIds.all (fun l => inControlGroup afterInit "Work Zones" l) = true ∧
    unrenderedBaseLayers afterInit = [LayerId.lightMap] ∧
    inControlBase afterInit LayerId.lightMap = true ∧
    afterInit.mapLayers = [LayerId.darkMap, LayerId.counties, LayerId.construction] := by
  refine ⟨by decide, by decide, by decide, by decide, by decide⟩

end LeafletPBI
